import Mathlib

/-!
Shallow embedding of the connection/transaction manager and query-execution
pipeline of the sql-runner repository.

The embedding covers:
- the connection registry and transaction methods of
  `src/src/connectionManager.ts` (`connect`, `disconnect`, `beginTransaction`,
  `commitTransaction`, `rollbackTransaction`), with each fallible backend call
  modelled by a Boolean oracle saying whether that call succeeds;
- the auto-commit policy decision, the failure handler, and the default
  row-limit injection of the query runner (`runQuery` and
  `executeAndShowResults` in `src/unnamed/part_001`);
- the result-shaping logic of `executeAndShowResults` (lines 143-176);
- the export gate of `exportLastResult` (`src/unnamed/part_002`).

PostgreSQL pool clients are modelled as natural-number handles; a ghost event
log records every checkout and release so that release-counting properties can
be stated. Strings are ASCII in this model: the JavaScript whitespace class is
modelled by space, tab, carriage return and line feed.
-/

namespace SqlRunner

/-- Database kinds, from the `dbType` union in `src/src/IConnection.ts`. -/
inductive DbType where
  | postgresql
  | mysql
  | sqlite
deriving DecidableEq

/-- The mutable per-connection record, from the `DbClient` type of
`src/src/connectionManager.ts` lines 8-14. The `mainClient` handle itself is
not modelled (only its lifecycle events are); `transactionClient` is the
optional dedicated PostgreSQL pool client, identified by a handle number. -/
structure DbClientState where
  dbType : DbType
  transactionClient : Option Nat
  inTransaction : Bool
  uncommittedQueries : Nat
deriving DecidableEq

/-- Ghost events recording backend-handle lifecycle: a PostgreSQL pool client
checkout (`pool.connect()`), a pool client release (`client.release()`), and
the opening of a main backend handle by `connect`. -/
inductive PoolEvent where
  | checkout (h : Nat)
  | release (h : Nat)
  | openMain (id : String)
deriving DecidableEq

/-- The `activeConnections` map, modelled as an association list keyed by
connection id. -/
abbrev Registry := List (String × DbClientState)

/-- Lookup in the registry: `activeConnections.get(connectionId)`. -/
def getState : Registry → String → Option DbClientState
  | [], _ => none
  | (k, st) :: rest, id => if k = id then some st else getState rest id

/-- Update in the registry: `activeConnections.set(id, state)` (replace the
binding for `id` if present, append it otherwise). -/
def setState : Registry → String → DbClientState → Registry
  | [], id, st => [(id, st)]
  | (k, st0) :: rest, id, st =>
    if k = id then (k, st) :: rest else (k, st0) :: setState rest id st

/-- Removal from the registry: `activeConnections.delete(id)`. -/
def removeState (r : Registry) (id : String) : Registry :=
  r.filter (fun p => !(p.1 = id : Bool))

/-- Whole-manager state: the registry, a counter supplying fresh pool-client
handles, and the ghost event log (most recent event first). -/
structure ManagerState where
  reg : Registry
  nextHandle : Nat
  events : List PoolEvent
deriving DecidableEq

/-- The manager at process start: empty registry, no events. -/
def initialManager : ManagerState := { reg := [], nextHandle := 0, events := [] }

/-- Whether a manager method returned normally (`ok`) or threw (`raised`). -/
inductive OpResult where
  | ok
  | raised
deriving DecidableEq

/-- `ConnectionManager.connect` (`src/src/connectionManager.ts` lines 42-95):
returns the existing state when the id is already connected; otherwise runs
the backend adapter (success given by `adapterOk`), stores a fresh state on
success, and on failure stores nothing and rethrows. The returned
`Option DbClientState` is the value handed back to the caller. -/
def connectFn (s : ManagerState) (id : String) (dbt : DbType) (adapterOk : Bool) :
    ManagerState × OpResult × Option DbClientState :=
  match getState s.reg id with
  | some st => (s, OpResult.ok, some st)
  | none =>
    if adapterOk then
      let st : DbClientState :=
        { dbType := dbt, transactionClient := none,
          inTransaction := false, uncommittedQueries := 0 }
      ({ s with reg := setState s.reg id st,
                events := PoolEvent.openMain id :: s.events }, OpResult.ok, some st)
    else (s, OpResult.raised, none)

/-- `ConnectionManager.beginTransaction` (lines 123-143). For PostgreSQL,
`acquireOk` is the outcome of `pool.connect()` and `beginOk` the outcome of
`client.query('BEGIN')`; when BEGIN fails the checked-out client is neither
stored nor released (it leaks), matching the source. For MySQL and SQLite only
the begin call (`beginOk`) can fail. A missing id or an already open
transaction is a silent no-op. -/
def beginTransactionFn (s : ManagerState) (id : String) (acquireOk beginOk : Bool) :
    ManagerState × OpResult :=
  match getState s.reg id with
  | none => (s, OpResult.ok)
  | some st =>
    if st.inTransaction then (s, OpResult.ok)
    else
      match st.dbType with
      | DbType.postgresql =>
        if acquireOk then
          let h := s.nextHandle
          let s1 : ManagerState :=
            { s with nextHandle := h + 1, events := PoolEvent.checkout h :: s.events }
          if beginOk then
            let st2 : DbClientState :=
              { st with transactionClient := some h,
                        inTransaction := true, uncommittedQueries := 0 }
            ({ s1 with reg := setState s1.reg id st2 }, OpResult.ok)
          else (s1, OpResult.raised)
        else (s, OpResult.raised)
      | DbType.mysql | DbType.sqlite =>
        if beginOk then
          let st2 : DbClientState := { st with inTransaction := true, uncommittedQueries := 0 }
          ({ s with reg := setState s.reg id st2 }, OpResult.ok)
        else (s, OpResult.raised)

/-- `ConnectionManager.commitTransaction` (lines 144-164). For PostgreSQL the
source reads `transactionClient`, runs COMMIT, and only then releases the
client and clears the reference; a failing COMMIT therefore releases nothing
and leaves every field unchanged. A missing `transactionClient` while
`inTransaction` makes `client.query` throw on an undefined client. A missing
id or no open transaction is a silent no-op. -/
def commitTransactionFn (s : ManagerState) (id : String) (commitOk : Bool) :
    ManagerState × OpResult :=
  match getState s.reg id with
  | none => (s, OpResult.ok)
  | some st =>
    if st.inTransaction then
      match st.dbType with
      | DbType.postgresql =>
        match st.transactionClient with
        | none => (s, OpResult.raised)
        | some h =>
          if commitOk then
            let st2 : DbClientState :=
              { st with transactionClient := none,
                        inTransaction := false, uncommittedQueries := 0 }
            ({ s with reg := setState s.reg id st2,
                      events := PoolEvent.release h :: s.events }, OpResult.ok)
          else (s, OpResult.raised)
      | DbType.mysql | DbType.sqlite =>
        if commitOk then
          let st2 : DbClientState := { st with inTransaction := false, uncommittedQueries := 0 }
          ({ s with reg := setState s.reg id st2 }, OpResult.ok)
        else (s, OpResult.raised)
    else (s, OpResult.ok)

/-- `ConnectionManager.rollbackTransaction` (lines 166-186), symmetric to
commit. -/
def rollbackTransactionFn (s : ManagerState) (id : String) (rollbackOk : Bool) :
    ManagerState × OpResult :=
  match getState s.reg id with
  | none => (s, OpResult.ok)
  | some st =>
    if st.inTransaction then
      match st.dbType with
      | DbType.postgresql =>
        match st.transactionClient with
        | none => (s, OpResult.raised)
        | some h =>
          if rollbackOk then
            let st2 : DbClientState :=
              { st with transactionClient := none,
                        inTransaction := false, uncommittedQueries := 0 }
            ({ s with reg := setState s.reg id st2,
                      events := PoolEvent.release h :: s.events }, OpResult.ok)
          else (s, OpResult.raised)
      | DbType.mysql | DbType.sqlite =>
        if rollbackOk then
          let st2 : DbClientState := { st with inTransaction := false, uncommittedQueries := 0 }
          ({ s with reg := setState s.reg id st2 }, OpResult.ok)
        else (s, OpResult.raised)
    else (s, OpResult.ok)

/-- `ConnectionManager.disconnect` (lines 97-115): no-op when the id is not
connected; otherwise releases the transaction client first (clearing the
stored reference), then closes the main handle, then deletes the entry. The
source wraps none of these calls in try/catch, so a failing release
(`releaseOk = false`) aborts before the reference is cleared. The close step
differs by backend: the PostgreSQL `pool.end()` and the MySQL
`connection.end()` are awaited, so their rejection (`closeOk = false`) aborts
before the entry is deleted and propagates; the SQLite `db.close()` (line
111) is issued without awaiting and without a callback, so a SQLite close
failure is delivered as an asynchronous error event elsewhere — the delete
still runs and `disconnect` resolves normally, whatever `closeOk` says. -/
def disconnectFn (s : ManagerState) (id : String) (releaseOk closeOk : Bool) :
    ManagerState × OpResult :=
  match getState s.reg id with
  | none => (s, OpResult.ok)
  | some st =>
    match st.transactionClient with
    | some h =>
      if releaseOk then
        let st2 : DbClientState := { st with transactionClient := none }
        let s1 : ManagerState :=
          { s with reg := setState s.reg id st2,
                   events := PoolEvent.release h :: s.events }
        match st.dbType with
        | DbType.sqlite => ({ s1 with reg := removeState s1.reg id }, OpResult.ok)
        | DbType.postgresql | DbType.mysql =>
          if closeOk then ({ s1 with reg := removeState s1.reg id }, OpResult.ok)
          else (s1, OpResult.raised)
      else (s, OpResult.raised)
    | none =>
      match st.dbType with
      | DbType.sqlite => ({ s with reg := removeState s.reg id }, OpResult.ok)
      | DbType.postgresql | DbType.mysql =>
        if closeOk then ({ s with reg := removeState s.reg id }, OpResult.ok)
        else (s, OpResult.raised)

/-- One manager operation together with the success oracles of its backend
calls. -/
inductive Op where
  | connectOp (id : String) (dbt : DbType) (adapterOk : Bool)
  | beginOp (id : String) (acquireOk beginOk : Bool)
  | commitOp (id : String) (commitOk : Bool)
  | rollbackOp (id : String) (rollbackOk : Bool)
  | disconnectOp (id : String) (releaseOk closeOk : Bool)
deriving DecidableEq

/-- Apply one operation to the manager state. -/
def applyOp (s : ManagerState) : Op → ManagerState × OpResult
  | Op.connectOp id dbt aok =>
    let r := connectFn s id dbt aok
    (r.1, r.2.1)
  | Op.beginOp id a b => beginTransactionFn s id a b
  | Op.commitOp id c => commitTransactionFn s id c
  | Op.rollbackOp id c => rollbackTransactionFn s id c
  | Op.disconnectOp id r c => disconnectFn s id r c

/-- Run a sequence of operations from the initial manager state. -/
def runOps (ops : List Op) : ManagerState :=
  ops.foldl (fun s op => (applyOp s op).1) initialManager

/-- The `inTransaction` flag of the entry for `id`, `false` when absent. -/
def inTxAt (s : ManagerState) (id : String) : Bool :=
  match getState s.reg id with
  | some st => st.inTransaction
  | none => false

/-- The `uncommittedQueries` counter of the entry for `id`, `0` when absent. -/
def uncommittedAt (s : ManagerState) (id : String) : Nat :=
  match getState s.reg id with
  | some st => st.uncommittedQueries
  | none => 0

/-- Number of `release h` events in an event log. -/
def relCount : List PoolEvent → Nat → Nat
  | [], _ => 0
  | PoolEvent.release h2 :: es, h => (if h2 = h then 1 else 0) + relCount es h
  | PoolEvent.checkout _ :: es, h => relCount es h
  | PoolEvent.openMain _ :: es, h => relCount es h

/-- An operation whose disconnect close step (if any) succeeds. -/
def goodCloseOp : Op → Bool
  | Op.disconnectOp _ _ closeOk => closeOk
  | _ => true

/-! ### Query executor: auto-commit policy, dispatch bookkeeping, failure
handler (`executeAndShowResults`, `src/unnamed/part_001`) -/

/-- The three auto-commit modes of the `sql-runner.autoCommit` setting. -/
inductive AutoCommit where
  | auto
  | off
  | smart
deriving DecidableEq

/-- ASCII model of the JavaScript whitespace class used by `trim` and `\s`. -/
def isWs (c : Char) : Bool := c == ' ' || c == '\t' || c == '\n' || c == '\r'

/-- `String.prototype.trim` on the character list. -/
def trimChars (cs : List Char) : List Char :=
  ((cs.dropWhile isWs).reverse.dropWhile isWs).reverse

/-- `String.prototype.toLowerCase` on the character list (ASCII). -/
def lowerChars (cs : List Char) : List Char := cs.map Char.toLower

/-- SELECT classification of `executeAndShowResults` line 96 and `runQuery`
line 46: `query.trim().toLowerCase().startsWith('select')`. -/
def isSelectQuery (q : String) : Bool :=
  List.isPrefixOf "select".data (lowerChars (trimChars q.data))

/-- The auto-commit decision of `executeAndShowResults` lines 98-104: under
`off`, begin whenever no transaction is open; under `smart`, begin when no
transaction is open and the statement is not SELECT-like; under `auto`,
never begin. -/
def autoCommitWantsBegin (p : AutoCommit) (inTransaction : Bool) (q : String) : Bool :=
  match p with
  | AutoCommit.off => !inTransaction
  | AutoCommit.smart => !(isSelectQuery q) && !inTransaction
  | AutoCommit.auto => false

/-- The transaction-state effect of one successful statement in
`executeAndShowResults` (lines 95-133): apply the auto-commit policy (the
begin, when taken, succeeds on this path), dispatch the statement, and on
success increment `uncommittedQueries` when the (re-fetched) state is in a
transaction. A missing id would have thrown in `getDbClient`, leaving the
state unchanged. -/
def execStatementOk (p : AutoCommit) (s : ManagerState) (id : String) (q : String) :
    ManagerState :=
  match getState s.reg id with
  | none => s
  | some st =>
    let s1 := if autoCommitWantsBegin p st.inTransaction q
              then (beginTransactionFn s id true true).1 else s
    match getState s1.reg id with
    | some st1 =>
      if st1.inTransaction then
        let st2 : DbClientState := { st1 with uncommittedQueries := st1.uncommittedQueries + 1 }
        { s1 with reg := setState s1.reg id st2 }
      else s1
    | none => s1

/-- What the catch handler of `executeAndShowResults` (lines 228-235) reports:
a single combined message, a bare query-failure message, or nothing because an
exception escaped the handler itself. -/
inductive FailReport where
  | combinedShown (message : String)
  | bareShown (message : String)
  | escaped
deriving DecidableEq

/-- Whether a report actually shows a message to the user. -/
def isSurfaced : FailReport → Bool
  | FailReport.escaped => false
  | _ => true

/-- The catch handler of `executeAndShowResults` lines 228-235: when the
connection state is present and in a transaction, call
`connectionManager.rollbackTransaction` (success given by `rollbackOk`) and
then show the combined message; the rollback call is not wrapped in any
try/catch, so when it throws the handler is exited and no message is shown.
Otherwise show the bare query-failure message. -/
def handleQueryFailure (s : ManagerState) (id : String) (qmsg : String)
    (rollbackOk : Bool) : ManagerState × FailReport :=
  match getState s.reg id with
  | some st =>
    if st.inTransaction then
      let r := rollbackTransactionFn s id rollbackOk
      match r.2 with
      | OpResult.ok =>
        (r.1, FailReport.combinedShown
          ("Query failed and transaction was rolled back: " ++ qmsg))
      | OpResult.raised => (r.1, FailReport.escaped)
    else (s, FailReport.bareShown ("Query failed: " ++ qmsg))
  | none => (s, FailReport.bareShown ("Query failed: " ++ qmsg))

/-! ### Default row-limit injection (`runQuery`, `src/unnamed/part_001`
lines 40-56) -/

/-- Tail of the regex `limit\s+\d+`: after at least one whitespace character,
skip further whitespace and require a digit. -/
def digitAfterWs : List Char → Bool
  | [] => false
  | c :: cs => if isWs c then digitAfterWs cs else c.isDigit

/-- Whether `limit\s+\d+` (case-insensitive) matches at the start of the
character list. -/
def matchLimitHere : List Char → Bool
  | c1 :: c2 :: c3 :: c4 :: c5 :: c6 :: rest =>
    c1.toLower == 'l' && c2.toLower == 'i' && c3.toLower == 'm' &&
      c4.toLower == 'i' && c5.toLower == 't' && isWs c6 && digitAfterWs rest
  | _ => false

/-- `/limit\s+\d+/i.test(query)`: the pattern matches somewhere in the list. -/
def hasLimitNum : List Char → Bool
  | [] => false
  | c :: cs => matchLimitHere (c :: cs) || hasLimitNum cs

/-- The row-limit injection of `runQuery` lines 46-53: when the configured
limit is positive, the trimmed query starts (case-insensitively) with
`select`, and the query contains no `limit <digits>` occurrence, append
`LIMIT <n>` to the trimmed query, before its trailing semicolon when it has
one; otherwise pass the query through unchanged. -/
def applyDefaultLimit (query : String) (defaultLimit : Int) : String :=
  if 0 < defaultLimit ∧ isSelectQuery query = true ∧ hasLimitNum query.data = false then
    let trimmedQuery := trimChars query.data
    if trimmedQuery.getLast? = some ';' then
      String.mk trimmedQuery.dropLast ++ " LIMIT " ++ toString defaultLimit ++ ";"
    else
      String.mk trimmedQuery ++ " LIMIT " ++ toString defaultLimit
  else query

/-! ### Result shaping (`executeAndShowResults` lines 143-182) and the export
gate (`exportLastResult`, `src/unnamed/part_002` lines 37-42) -/

/-- A result row: column name to nullable value. -/
abbrev Row := List (String × Option String)

/-- Column metadata as used by the display and export code (`field.name`). -/
structure FieldInfo where
  name : String
deriving DecidableEq

/-- One PostgreSQL per-statement result: command verb, rows, row count,
fields. -/
structure PgCmdResult where
  command : String
  rows : List Row
  rowCount : Nat
  fields : List FieldInfo
deriving DecidableEq

/-- First component of the pair returned by the mysql2 `query` call: a row
array for tabular statements, a result-set header for DML. -/
inductive MysqlFirst where
  | rowList (rows : List Row)
  | header (affectedRows : Nat)
deriving DecidableEq

/-- The mysql2 `query` return value `[first, fields]`. -/
inductive MysqlRet where
  | pair (first : MysqlFirst) (fields : List FieldInfo)
deriving DecidableEq

/-- What one executed statement produces for display: an early-returning DML
summary message (no `lastQueryResult` stored), or a tabular result that is
stored as `lastQueryResult`. -/
inductive ExecOutcome where
  | dmlSummary (message : String)
  | tabular (rows : List Row) (fields : List FieldInfo)
deriving DecidableEq

/-- Whether an outcome is a DML summary. -/
def isDmlSummaryB : ExecOutcome → Bool
  | ExecOutcome.dmlSummary _ => true
  | ExecOutcome.tabular _ _ => false

/-- SQLite result shaping (`executeAndShowResults` lines 144-147): the
dispatch always goes through the row-returning `client.all`, so the raw
result is a row list; column names come from the keys of the first row, and
zero rows give zero columns. -/
def shapeSqlite (rows : List Row) : ExecOutcome :=
  match rows with
  | [] => ExecOutcome.tabular [] []
  | r0 :: _ => ExecOutcome.tabular rows (r0.map (fun kv => { name := kv.1 }))

/-- MySQL result shaping (lines 148-160). For a DML statement the first pair
component is a header, the `Array.isArray(result[0])` test fails, and the
source reads `result.affectedRows` off the pair itself, which is undefined;
the summary message therefore renders the count as `undefined`. -/
def shapeMysql : MysqlRet → ExecOutcome
  | MysqlRet.pair (MysqlFirst.rowList rows) fields => ExecOutcome.tabular rows fields
  | MysqlRet.pair (MysqlFirst.header _) _ =>
    ExecOutcome.dmlSummary "Query OK, undefined rows affected."

/-- PostgreSQL shaping of the last statement result (lines 161-176): SELECT
gives a tabular result, anything else a `<command> <rowCount>` summary. -/
def shapePgLast (r : PgCmdResult) : ExecOutcome :=
  if r.command = "SELECT" then ExecOutcome.tabular r.rows r.fields
  else ExecOutcome.dmlSummary (r.command ++ " " ++ toString r.rowCount)

/-- The retained `lastQueryResult` of the query runner. -/
structure QueryResult where
  rows : List Row
  fields : List FieldInfo
deriving DecidableEq

/-- Outcome of the guard at the top of `exportLastResult`. -/
inductive ExportDecision where
  | warned (message : String)
  | proceeds
deriving DecidableEq

/-- The guard of `exportLastResult` (`src/unnamed/part_002` lines 37-42):
refuse with a warning, writing nothing, when no result is retained or the
retained result has zero rows; otherwise continue to the export flow. -/
def exportGate (lastResult : Option QueryResult) : ExportDecision :=
  match lastResult with
  | none => ExportDecision.warned "No query result to export."
  | some r =>
    if r.rows.length = 0 then ExportDecision.warned "No query result to export."
    else ExportDecision.proceeds

/-! ### Invariant predicates -/

/-- Boolean form of the transaction-handle invariant on one record: the
dedicated transaction client is stored exactly when the backend is PostgreSQL
and a transaction is open. -/
def txIffOk (st : DbClientState) : Bool :=
  st.transactionClient.isSome == (decide (st.dbType = DbType.postgresql) && st.inTransaction)

/-- The transaction-handle invariant holds of every record in a registry. -/
def TxIffReg (r : Registry) : Prop :=
  ∀ (id : String) (st : DbClientState), getState r id = some st → txIffOk st = true

/-- Release-accounting invariant tying the stored transaction clients, the
fresh-handle counter, and the ghost event log together: every stored client
handle is below the counter and not yet released, distinct records store
distinct handles, no handle is released more than once, and released handles
are below the counter. -/
structure RelInv (s : ManagerState) : Prop where
  txFresh : ∀ (id : String) (st : DbClientState) (h : Nat),
    getState s.reg id = some st → st.transactionClient = some h → h < s.nextHandle
  txUnreleased : ∀ (id : String) (st : DbClientState) (h : Nat),
    getState s.reg id = some st → st.transactionClient = some h →
    relCount s.events h = 0
  txDistinct : ∀ (id1 id2 : String) (st1 st2 : DbClientState) (h : Nat),
    getState s.reg id1 = some st1 → getState s.reg id2 = some st2 →
    st1.transactionClient = some h → st2.transactionClient = some h → id1 = id2
  relOnce : ∀ h : Nat, relCount s.events h ≤ 1
  relFresh : ∀ h : Nat, relCount s.events h ≠ 0 → h < s.nextHandle

/-! ## Registry lemmas -/

theorem getState_setState_self (r : Registry) (id : String) (st : DbClientState) :
    getState (setState r id st) id = some st := by
  induction r with
  | nil => simp [setState, getState]
  | cons p rest ih =>
    obtain ⟨k, st0⟩ := p
    by_cases hk : k = id
    · simp [setState, hk, getState]
    · simp [setState, hk, getState, ih]

theorem getState_setState_ne (r : Registry) (st : DbClientState) {id id' : String}
    (h : id' ≠ id) : getState (setState r id st) id' = getState r id' := by
  induction r with
  | nil => simp [setState, getState, Ne.symm h]
  | cons p rest ih =>
    obtain ⟨k, st0⟩ := p
    by_cases hk : k = id
    · subst hk
      simp [setState, getState, Ne.symm h]
    · simp [setState, hk, getState, ih]

theorem getState_removeState_self (r : Registry) (id : String) :
    getState (removeState r id) id = none := by
  induction r with
  | nil => rfl
  | cons p rest ih =>
    obtain ⟨k, st0⟩ := p
    simp only [removeState, List.filter_cons] at ih ⊢
    by_cases hk : k = id
    · simp [hk, ih]
    · simp [hk, getState, ih]

theorem getState_removeState_ne (r : Registry) {id id' : String} (h : id' ≠ id) :
    getState (removeState r id) id' = getState r id' := by
  induction r with
  | nil => rfl
  | cons p rest ih =>
    obtain ⟨k, st0⟩ := p
    simp only [removeState, List.filter_cons] at ih ⊢
    by_cases hk : k = id
    · subst hk
      simp [getState, ih, Ne.symm h]
    · simp [hk, getState, ih]

/-! ## Claim C6: idempotent connect -/

/-- C6: `connect` is idempotent. When the id already has a live registry
entry, `connect` returns that entry unchanged (the whole manager state,
including the registry and the handle-event log, stays as it was, and the
result does not depend on the adapter outcome, so no second backend handle is
opened and no credential re-validation occurs); when the id has no entry and
the adapter fails, nothing is stored and the error propagates. -/
theorem connect_idempotent :
    (∀ (s : ManagerState) (id : String) (dbt : DbType) (adapterOk : Bool)
        (st : DbClientState), getState s.reg id = some st →
        connectFn s id dbt adapterOk = (s, OpResult.ok, some st)) ∧
    (∀ (s : ManagerState) (id : String) (dbt : DbType),
        getState s.reg id = none →
        connectFn s id dbt false = (s, OpResult.raised, none)) := by
  constructor
  · intro s id dbt aok st h
    simp [connectFn, h]
  · intro s id dbt h
    simp [connectFn, h]

/-- C6 witness: connecting again on an already-connected id returns the stored
record unchanged even when the adapter would fail. -/
theorem connect_idempotent_witness :
    connectFn (runOps [Op.connectOp "c" DbType.mysql true]) "c" DbType.mysql false =
      (runOps [Op.connectOp "c" DbType.mysql true], OpResult.ok,
        some { dbType := DbType.mysql, transactionClient := none,
               inTransaction := false, uncommittedQueries := 0 }) :=
  connect_idempotent.1 (runOps [Op.connectOp "c" DbType.mysql true]) "c" DbType.mysql false
    { dbType := DbType.mysql, transactionClient := none,
      inTransaction := false, uncommittedQueries := 0 } (by decide)

/-! ## Claim C8: transaction operations on an unknown id -/

/-- C8: for a connection id with no registry entry, `beginTransaction`,
`commitTransaction` and `rollbackTransaction` all return normally without
raising and without touching the manager state: the caller gets no
not-connected indication. -/
theorem txOps_missing_id_noop :
    ∀ (s : ManagerState) (id : String), getState s.reg id = none →
      (∀ a b : Bool, beginTransactionFn s id a b = (s, OpResult.ok)) ∧
      (∀ c : Bool, commitTransactionFn s id c = (s, OpResult.ok)) ∧
      (∀ c : Bool, rollbackTransactionFn s id c = (s, OpResult.ok)) := by
  intro s id h
  refine ⟨fun a b => ?_, fun c => ?_, fun c => ?_⟩
  · simp [beginTransactionFn, h]
  · simp [commitTransactionFn, h]
  · simp [rollbackTransactionFn, h]

/-- C8 witness: on the empty manager, all three transaction operations on an
unknown id return normally and change nothing. -/
theorem txOps_missing_id_noop_witness :
    beginTransactionFn initialManager "z" true true = (initialManager, OpResult.ok) ∧
    commitTransactionFn initialManager "z" true = (initialManager, OpResult.ok) ∧
    rollbackTransactionFn initialManager "z" true = (initialManager, OpResult.ok) :=
  ⟨(txOps_missing_id_noop initialManager "z" (by decide)).1 true true,
   (txOps_missing_id_noop initialManager "z" (by decide)).2.1 true,
   (txOps_missing_id_noop initialManager "z" (by decide)).2.2 true⟩

/-! ## Claim C9: SQLite statements always take the row-returning path -/

/-- C9: every SQLite statement goes through the row-returning `all` API, so
its shaped outcome is always tabular and never a DML summary: zero raw rows
give the zero-column tabular success result, and a nonempty row list gets its
column names from the keys of the first row. By contrast the MySQL DML path
and the PostgreSQL non-SELECT path both produce an affected-row/command
summary. -/
theorem sqlite_always_tabular :
    (∀ rows : List Row, isDmlSummaryB (shapeSqlite rows) = false) ∧
    shapeSqlite [] = ExecOutcome.tabular [] [] ∧
    (∀ (r : Row) (rs : List Row),
        shapeSqlite (r :: rs) =
          ExecOutcome.tabular (r :: rs) (r.map (fun kv => { name := kv.1 }))) ∧
    (∀ (n : Nat) (fields : List FieldInfo),
        isDmlSummaryB (shapeMysql (MysqlRet.pair (MysqlFirst.header n) fields)) = true) ∧
    (∀ r : PgCmdResult, r.command ≠ "SELECT" → isDmlSummaryB (shapePgLast r) = true) := by
  refine ⟨fun rows => ?_, rfl, fun r rs => rfl, fun n fields => rfl, fun r h => ?_⟩
  · cases rows <;> rfl
  · simp [shapePgLast, isDmlSummaryB, h]

/-- C9 witness: a PostgreSQL UPDATE result is shaped as a DML summary, unlike
every SQLite result. -/
theorem sqlite_always_tabular_witness :
    isDmlSummaryB (shapePgLast
      { command := "UPDATE", rows := [], rowCount := 3, fields := [] }) = true :=
  sqlite_always_tabular.2.2.2.2
    { command := "UPDATE", rows := [], rowCount := 3, fields := [] } (by decide)

/-! ## Claim C10: the export gate -/

/-- C10: `exportLastResult` refuses with the warning both when no result is
retained and when the retained result has zero rows, whatever its columns, so
a zero-row result can never be exported; it proceeds exactly when the
retained result has at least one row. -/
theorem export_refuses_zero_rows :
    exportGate none = ExportDecision.warned "No query result to export." ∧
    (∀ fields : List FieldInfo,
        exportGate (some { rows := [], fields := fields }) =
          ExportDecision.warned "No query result to export.") ∧
    (∀ res : QueryResult, res.rows ≠ [] →
        exportGate (some res) = ExportDecision.proceeds) := by
  refine ⟨rfl, fun fields => rfl, fun res h => ?_⟩
  simp [exportGate, List.length_eq_zero, h]

/-- C10 witness: a one-row retained result passes the export gate. -/
theorem export_refuses_zero_rows_witness :
    exportGate (some { rows := [[("id", some "1")]], fields := [{ name := "id" }] }) =
      ExportDecision.proceeds :=
  export_refuses_zero_rows.2.2
    { rows := [[("id", some "1")]], fields := [{ name := "id" }] } (by decide)

/-! ## Claim C7: default row-limit injection -/

/-- C7: on the CodeLens run path, when the configured limit is positive, the
trimmed query starts case-insensitively with `select`, and the query text
contains no case-insensitive `limit <digits>` occurrence, the query becomes
its trimmed text with ` LIMIT <n>` spliced in before the trailing semicolon
when the trimmed text ends with one, or appended at the end otherwise; in
every other case the query text is passed through unchanged. -/
theorem runQuery_limit_injection (q : String) (n : Int) :
    (0 < n → isSelectQuery q = true → hasLimitNum q.data = false →
        applyDefaultLimit q n =
          if (trimChars q.data).getLast? = some ';' then
            String.mk (trimChars q.data).dropLast ++ " LIMIT " ++ toString n ++ ";"
          else
            String.mk (trimChars q.data) ++ " LIMIT " ++ toString n) ∧
    (¬(0 < n ∧ isSelectQuery q = true ∧ hasLimitNum q.data = false) →
        applyDefaultLimit q n = q) := by
  constructor
  · intro h1 h2 h3
    rw [applyDefaultLimit, if_pos ⟨h1, h2, h3⟩]
  · intro h
    rw [applyDefaultLimit, if_neg h]

/-- C7 witness: a SELECT with a trailing semicolon and no LIMIT clause gets
`LIMIT 100` spliced in before the semicolon. -/
theorem runQuery_limit_injection_witness :
    applyDefaultLimit "select * from t;" 100 = "select * from t LIMIT 100;" := by
  have h := (runQuery_limit_injection "select * from t;" 100).1
    (by decide) (by decide) (by decide)
  rw [h]
  decide

/-! ## Claim C1: auto-commit policy -/

theorem execStatementOk_noBegin (p : AutoCommit) (s : ManagerState) (id q : String)
    (h : ∀ st : DbClientState, getState s.reg id = some st →
      st.inTransaction = false ∧ autoCommitWantsBegin p st.inTransaction q = false) :
    execStatementOk p s id q = s := by
  unfold execStatementOk
  cases hg : getState s.reg id with
  | none => rfl
  | some st =>
    obtain ⟨hst, hw⟩ := h st hg
    rw [hst] at hw
    simp [hw, hst, hg]

theorem getState_begin_success (s : ManagerState) (id : String) (st : DbClientState)
    (hg : getState s.reg id = some st) (hst : st.inTransaction = false) :
    ∃ st2 : DbClientState,
      getState (beginTransactionFn s id true true).1.reg id = some st2 ∧
      st2.inTransaction = true := by
  unfold beginTransactionFn
  simp only [hg]
  rw [hst]
  cases hdb : st.dbType
  case postgresql =>
    refine ⟨{ dbType := DbType.postgresql, transactionClient := some s.nextHandle,
              inTransaction := true, uncommittedQueries := 0 }, ?_, rfl⟩
    simp [getState_setState_self]
  case mysql =>
    refine ⟨{ dbType := DbType.mysql, transactionClient := st.transactionClient,
              inTransaction := true, uncommittedQueries := 0 }, ?_, rfl⟩
    simp [getState_setState_self]
  case sqlite =>
    refine ⟨{ dbType := DbType.sqlite, transactionClient := st.transactionClient,
              inTransaction := true, uncommittedQueries := 0 }, ?_, rfl⟩
    simp [getState_setState_self]

theorem inTxAt_execStatementOk_begins (p : AutoCommit) (s : ManagerState) (id q : String)
    (st : DbClientState) (hg : getState s.reg id = some st)
    (hst : st.inTransaction = false)
    (hw : autoCommitWantsBegin p st.inTransaction q = true) :
    inTxAt (execStatementOk p s id q) id = true := by
  unfold execStatementOk
  simp only [hg]
  rw [hw]
  obtain ⟨st2, hg2, hin2⟩ := getState_begin_success s id st hg hst
  simp [hg2, hin2, inTxAt, getState_setState_self]

/-- C1: the auto-commit decision before each statement. Under `auto` a
transaction is never begun, and any sequence of successful statements issued
while the connection is not in a transaction leaves it out of a transaction.
Under `off` a transaction is begun exactly when none is open, regardless of
statement kind. Under `smart` a transaction is begun exactly when none is
open and the trimmed statement does not start case-insensitively with
`select`; in particular a SELECT issued while idle leaves the state fully
unchanged, while a non-SELECT issued while idle puts the connection in a
transaction. -/
theorem autoCommit_policy_correct (s : ManagerState) (id : String) :
    (∀ (b : Bool) (q : String),
        autoCommitWantsBegin AutoCommit.auto b q = false ∧
        autoCommitWantsBegin AutoCommit.off b q = !b ∧
        autoCommitWantsBegin AutoCommit.smart b q = (!(isSelectQuery q) && !b)) ∧
    (∀ qs : List String, inTxAt s id = false →
        inTxAt (qs.foldl (fun t q => execStatementOk AutoCommit.auto t id q) s) id = false) ∧
    (∀ (q : String) (st : DbClientState), getState s.reg id = some st →
        st.inTransaction = false →
        inTxAt (execStatementOk AutoCommit.off s id q) id = true) ∧
    (∀ (q : String) (st : DbClientState), getState s.reg id = some st →
        st.inTransaction = false →
        (isSelectQuery q = true → execStatementOk AutoCommit.smart s id q = s) ∧
        (isSelectQuery q = false →
          inTxAt (execStatementOk AutoCommit.smart s id q) id = true)) := by
  refine ⟨fun b q => ⟨rfl, rfl, rfl⟩, ?_, ?_, ?_⟩
  · intro qs
    induction qs generalizing s with
    | nil => intro h; exact h
    | cons q rest ih =>
      intro h
      have hstep : execStatementOk AutoCommit.auto s id q = s := by
        apply execStatementOk_noBegin
        intro st hg
        refine ⟨?_, rfl⟩
        unfold inTxAt at h
        rw [hg] at h
        exact h
      simp only [List.foldl_cons, hstep]
      exact ih s h
  · intro q st hg hst
    exact inTxAt_execStatementOk_begins AutoCommit.off s id q st hg hst
      (by simp [autoCommitWantsBegin, hst])
  · intro q st hg hst
    constructor
    · intro hsel
      apply execStatementOk_noBegin
      intro st' hg'
      rw [hg] at hg'
      cases hg'
      exact ⟨hst, by simp [autoCommitWantsBegin, hsel]⟩
    · intro hsel
      exact inTxAt_execStatementOk_begins AutoCommit.smart s id q st hg hst
        (by simp [autoCommitWantsBegin, hsel, hst])

/-- C1 witness: on a live MySQL connection, three non-SELECT statements under
policy `auto` leave `inTransaction = false`. -/
theorem autoCommit_policy_correct_witness :
    inTxAt ((["UPDATE t SET x = 1", "INSERT INTO t VALUES (2)", "DELETE FROM t"].foldl
        (fun t q => execStatementOk AutoCommit.auto t "c" q)
        (runOps [Op.connectOp "c" DbType.mysql true]))) "c" = false :=
  (autoCommit_policy_correct (runOps [Op.connectOp "c" DbType.mysql true]) "c").2.1
    ["UPDATE t SET x = 1", "INSERT INTO t VALUES (2)", "DELETE FROM t"] (by decide)

/-! ## Claim C2: automatic rollback on dispatch failure -/

theorem rollbackTransactionFn_ok_state (s : ManagerState) (id : String)
    (st : DbClientState) (hg : getState s.reg id = some st)
    (hin : st.inTransaction = true)
    (hcl : st.dbType = DbType.postgresql → st.transactionClient.isSome = true) :
    (rollbackTransactionFn s id true).2 = OpResult.ok ∧
    inTxAt (rollbackTransactionFn s id true).1 id = false ∧
    uncommittedAt (rollbackTransactionFn s id true).1 id = 0 := by
  unfold rollbackTransactionFn
  simp only [hg, hin]
  cases hdb : st.dbType
  case postgresql =>
    obtain ⟨hh, hch⟩ := Option.isSome_iff_exists.mp (hcl hdb)
    rw [hch]
    simp [inTxAt, uncommittedAt, getState_setState_self]
  case mysql => simp [inTxAt, uncommittedAt, getState_setState_self]
  case sqlite => simp [inTxAt, uncommittedAt, getState_setState_self]

theorem rollbackTransactionFn_fail (s : ManagerState) (id : String)
    (st : DbClientState) (hg : getState s.reg id = some st)
    (hin : st.inTransaction = true) :
    (rollbackTransactionFn s id false).2 = OpResult.raised := by
  unfold rollbackTransactionFn
  simp only [hg, hin]
  cases hdb : st.dbType
  case postgresql => cases hc : st.transactionClient <;> simp
  case mysql => simp
  case sqlite => simp

theorem handleQueryFailure_eq_of_rollback_ok (s : ManagerState) (id qmsg : String)
    (st : DbClientState) (hg : getState s.reg id = some st)
    (hin : st.inTransaction = true)
    (hok : (rollbackTransactionFn s id true).2 = OpResult.ok) :
    handleQueryFailure s id qmsg true =
      ((rollbackTransactionFn s id true).1,
        FailReport.combinedShown ("Query failed and transaction was rolled back: " ++ qmsg)) := by
  unfold handleQueryFailure
  simp only [hg, hin, if_true]
  rw [hok]

theorem handleQueryFailure_eq_of_rollback_fail (s : ManagerState) (id qmsg : String)
    (st : DbClientState) (hg : getState s.reg id = some st)
    (hin : st.inTransaction = true)
    (hfail : (rollbackTransactionFn s id false).2 = OpResult.raised) :
    handleQueryFailure s id qmsg false =
      ((rollbackTransactionFn s id false).1, FailReport.escaped) := by
  unfold handleQueryFailure
  simp only [hg, hin, if_true]
  rw [hfail]

/-- C2 (amended): on a dispatch failure with an open transaction, the handler
calls `rollbackTransaction`; when that succeeds the user sees exactly one
combined error naming both the query failure and the rollback, and the
connection ends with `inTransaction = false` and `uncommittedCount = 0`.
Without an open transaction only the bare query failure is reported and the
state is untouched. But when the automatic rollback itself fails, the rollback
error escapes the handler and neither failure is surfaced (amending the claim,
which said both failures are surfaced). -/
theorem failureRollback_behavior :
    (∀ (s : ManagerState) (id qmsg : String) (st : DbClientState),
        getState s.reg id = some st → st.inTransaction = true →
        (st.transactionClient.isSome = true ↔
          st.dbType = DbType.postgresql ∧ st.inTransaction = true) →
        (handleQueryFailure s id qmsg true).2 =
            FailReport.combinedShown
              ("Query failed and transaction was rolled back: " ++ qmsg) ∧
          inTxAt (handleQueryFailure s id qmsg true).1 id = false ∧
          uncommittedAt (handleQueryFailure s id qmsg true).1 id = 0) ∧
    (∀ (s : ManagerState) (id qmsg : String) (rollbackOk : Bool),
        inTxAt s id = false →
        handleQueryFailure s id qmsg rollbackOk =
          (s, FailReport.bareShown ("Query failed: " ++ qmsg))) ∧
    (∀ (s : ManagerState) (id qmsg : String) (st : DbClientState),
        getState s.reg id = some st → st.inTransaction = true →
        (handleQueryFailure s id qmsg false).2 = FailReport.escaped ∧
        isSurfaced (handleQueryFailure s id qmsg false).2 = false) := by
  refine ⟨?_, ?_, ?_⟩
  · intro s id qmsg st hg hin hiff
    have hr := rollbackTransactionFn_ok_state s id st hg hin
      (fun hdb => hiff.mpr ⟨hdb, hin⟩)
    rw [handleQueryFailure_eq_of_rollback_ok s id qmsg st hg hin hr.1]
    exact ⟨rfl, hr.2.1, hr.2.2⟩
  · intro s id qmsg rok hidle
    unfold handleQueryFailure
    cases hg : getState s.reg id with
    | none => rfl
    | some st =>
      have hst : st.inTransaction = false := by
        unfold inTxAt at hidle
        rw [hg] at hidle
        exact hidle
      simp [hg, hst]
  · intro s id qmsg st hg hin
    have hf := rollbackTransactionFn_fail s id st hg hin
    rw [handleQueryFailure_eq_of_rollback_fail s id qmsg st hg hin hf]
    exact ⟨rfl, rfl⟩

/-- C2 counterexample: with an open PostgreSQL transaction and a failing
automatic rollback, the handler surfaces nothing at all — the claim said both
the query failure and the rollback failure are surfaced to the user. -/
theorem failureRollback_bothSurfaced_cex :
    (handleQueryFailure
        (runOps [Op.connectOp "c" DbType.postgresql true, Op.beginOp "c" true true])
        "c" "boom" false).2 = FailReport.escaped ∧
    isSurfaced (handleQueryFailure
        (runOps [Op.connectOp "c" DbType.postgresql true, Op.beginOp "c" true true])
        "c" "boom" false).2 = false := by decide

/-- C2 witness: on an open SQLite transaction, a dispatch failure with a
successful automatic rollback yields the single combined message and resets
the transaction state. -/
theorem failureRollback_behavior_witness :
    (handleQueryFailure
        (runOps [Op.connectOp "c" DbType.sqlite true, Op.beginOp "c" true true])
        "c" "boom" true).2 =
      FailReport.combinedShown
        ("Query failed and transaction was rolled back: " ++ "boom") ∧
    inTxAt (handleQueryFailure
        (runOps [Op.connectOp "c" DbType.sqlite true, Op.beginOp "c" true true])
        "c" "boom" true).1 "c" = false ∧
    uncommittedAt (handleQueryFailure
        (runOps [Op.connectOp "c" DbType.sqlite true, Op.beginOp "c" true true])
        "c" "boom" true).1 "c" = 0 :=
  failureRollback_behavior.1
    (runOps [Op.connectOp "c" DbType.sqlite true, Op.beginOp "c" true true]) "c" "boom"
    { dbType := DbType.sqlite, transactionClient := none,
      inTransaction := true, uncommittedQueries := 0 }
    (by decide) rfl (by decide)

/-! ## Claim C5: disconnect behaviour -/

/-- C5 (amended): `disconnect(id)` is a no-op when the id is not connected;
when everything succeeds it releases any transaction client, closes the main
handle, and removes the registry entry. For SQLite the close is issued
without awaiting and without a callback, so a close failure is delivered as
an asynchronous error event: the entry is still removed and disconnect
resolves normally. But a failing release propagates and leaves the entry
fully intact, and a failing awaited close of a PostgreSQL pool or a MySQL
connection propagates and leaves the entry in the registry with only the
transaction client cleared — a half-torn-down entry (amending the claim,
which said release/close errors are always swallowed after best-effort
cleanup). -/
theorem disconnect_behavior :
    (∀ (s : ManagerState) (id : String) (rok cok : Bool),
        getState s.reg id = none → disconnectFn s id rok cok = (s, OpResult.ok)) ∧
    (∀ (s : ManagerState) (id : String) (st : DbClientState),
        getState s.reg id = some st →
        (disconnectFn s id true true).2 = OpResult.ok ∧
        getState (disconnectFn s id true true).1.reg id = none) ∧
    (∀ (s : ManagerState) (id : String) (st : DbClientState) (h : Nat),
        getState s.reg id = some st → st.transactionClient = some h →
        ∀ cok : Bool, disconnectFn s id false cok = (s, OpResult.raised)) ∧
    (∀ (s : ManagerState) (id : String) (st : DbClientState),
        getState s.reg id = some st → st.dbType ≠ DbType.sqlite →
        (disconnectFn s id true false).2 = OpResult.raised ∧
        getState (disconnectFn s id true false).1.reg id =
          some { st with transactionClient := none }) ∧
    (∀ (s : ManagerState) (id : String) (st : DbClientState) (cok : Bool),
        getState s.reg id = some st → st.dbType = DbType.sqlite →
        (disconnectFn s id true cok).2 = OpResult.ok ∧
        getState (disconnectFn s id true cok).1.reg id = none) := by
  refine ⟨?_, ?_, ?_, ?_, ?_⟩
  · intro s id rok cok h
    simp [disconnectFn, h]
  · intro s id st hg
    unfold disconnectFn
    simp only [hg]
    obtain ⟨dbt, tc, itx, unc⟩ := st
    cases tc with
    | none => cases dbt <;> simp [getState_removeState_self]
    | some hh => cases dbt <;> simp [getState_removeState_self]
  · intro s id st hh hg hc cok
    unfold disconnectFn
    simp only [hg]
    obtain ⟨dbt, tc, itx, unc⟩ := st
    simp only at hc
    subst hc
    rfl
  · intro s id st hg hdbne
    unfold disconnectFn
    simp only [hg]
    obtain ⟨dbt, tc, itx, unc⟩ := st
    cases tc with
    | none =>
      cases dbt
      case sqlite => exact absurd rfl hdbne
      case postgresql => exact ⟨rfl, hg⟩
      case mysql => exact ⟨rfl, hg⟩
    | some hh =>
      cases dbt
      case sqlite => exact absurd rfl hdbne
      case postgresql => exact ⟨rfl, getState_setState_self s.reg id _⟩
      case mysql => exact ⟨rfl, getState_setState_self s.reg id _⟩
  · intro s id st cok hg hdb
    unfold disconnectFn
    simp only [hg]
    obtain ⟨dbt, tc, itx, unc⟩ := st
    simp only at hdb
    subst hdb
    cases tc with
    | none => simp [getState_removeState_self]
    | some hh => simp [getState_removeState_self]

/-- C5 counterexample: a failing awaited close of a MySQL connection during
disconnect propagates as an error and leaves the registry entry in place —
the claim said release/close errors are swallowed and no half-torn-down entry
remains. -/
theorem disconnect_swallow_cex :
    (applyOp (runOps [Op.connectOp "c" DbType.mysql true])
        (Op.disconnectOp "c" true false)).2 = OpResult.raised ∧
    getState (applyOp (runOps [Op.connectOp "c" DbType.mysql true])
        (Op.disconnectOp "c" true false)).1.reg "c" =
      some { dbType := DbType.mysql, transactionClient := none,
             inTransaction := false, uncommittedQueries := 0 } := by decide

/-- C5 witness: a fully successful disconnect removes the entry and returns
normally. -/
theorem disconnect_behavior_witness :
    (disconnectFn (runOps [Op.connectOp "c" DbType.sqlite true]) "c" true true).2 =
      OpResult.ok ∧
    getState (disconnectFn (runOps [Op.connectOp "c" DbType.sqlite true])
        "c" true true).1.reg "c" = none :=
  disconnect_behavior.2.1 (runOps [Op.connectOp "c" DbType.sqlite true]) "c"
    { dbType := DbType.sqlite, transactionClient := none,
      inTransaction := false, uncommittedQueries := 0 } (by decide)

/-! ## Claim C3: the transaction-handle invariant -/

theorem txIffOk_iff (st : DbClientState) :
    txIffOk st = true ↔
      (st.transactionClient.isSome = true ↔
        st.dbType = DbType.postgresql ∧ st.inTransaction = true) := by
  obtain ⟨dbt, tc, itx, unc⟩ := st
  cases tc <;> cases itx <;> cases dbt <;> simp [txIffOk]

theorem txIffReg_set (r : Registry) (id : String) (st : DbClientState)
    (hr : TxIffReg r) (hst : txIffOk st = true) : TxIffReg (setState r id st) := by
  intro id' st' hget
  rcases eq_or_ne id' id with he | he
  · subst he
    rw [getState_setState_self] at hget
    cases hget
    exact hst
  · rw [getState_setState_ne _ _ he] at hget
    exact hr _ _ hget

theorem txIffReg_remove (r : Registry) (id : String) (hr : TxIffReg r) :
    TxIffReg (removeState r id) := by
  intro id' st' hget
  rcases eq_or_ne id' id with he | he
  · subst he
    rw [getState_removeState_self] at hget
    cases hget
  · rw [getState_removeState_ne _ he] at hget
    exact hr _ _ hget

theorem txIffReg_remove_after_set (r : Registry) (id : String) (st : DbClientState)
    (hr : TxIffReg r) : TxIffReg (removeState (setState r id st) id) := by
  intro id' st' hget
  rcases eq_or_ne id' id with he | he
  · subst he
    rw [getState_removeState_self] at hget
    cases hget
  · rw [getState_removeState_ne _ he, getState_setState_ne _ _ he] at hget
    exact hr _ _ hget

theorem txIffReg_applyOp (s : ManagerState) (op : Op) (hinv : TxIffReg s.reg)
    (hop : goodCloseOp op = true) : TxIffReg (applyOp s op).1.reg := by
  cases op with
  | connectOp id dbt aok =>
    show TxIffReg (connectFn s id dbt aok).1.reg
    unfold connectFn
    cases hg : getState s.reg id with
    | some st => exact hinv
    | none =>
      cases aok
      · exact hinv
      · exact txIffReg_set s.reg id _ hinv (by simp [txIffOk])
  | beginOp id a b =>
    show TxIffReg (beginTransactionFn s id a b).1.reg
    unfold beginTransactionFn
    cases hg : getState s.reg id with
    | none => exact hinv
    | some st =>
      obtain ⟨dbt, tc, itx, unc⟩ := st
      cases itx
      case true => exact hinv
      case false =>
        cases dbt
        case postgresql =>
          cases a
          · exact hinv
          · cases b
            · exact hinv
            · exact txIffReg_set s.reg id _ hinv (by simp [txIffOk])
        case mysql =>
          cases b
          · exact hinv
          · cases tc with
            | none => exact txIffReg_set s.reg id _ hinv (by simp [txIffOk])
            | some v => exact absurd (hinv id _ hg) (by simp [txIffOk])
        case sqlite =>
          cases b
          · exact hinv
          · cases tc with
            | none => exact txIffReg_set s.reg id _ hinv (by simp [txIffOk])
            | some v => exact absurd (hinv id _ hg) (by simp [txIffOk])
  | commitOp id c =>
    show TxIffReg (commitTransactionFn s id c).1.reg
    unfold commitTransactionFn
    cases hg : getState s.reg id with
    | none => exact hinv
    | some st =>
      obtain ⟨dbt, tc, itx, unc⟩ := st
      cases itx
      case false => exact hinv
      case true =>
        cases dbt
        case postgresql =>
          cases tc with
          | none => exact hinv
          | some hh =>
            cases c
            · exact hinv
            · exact txIffReg_set s.reg id _ hinv (by simp [txIffOk])
        case mysql =>
          cases c
          · exact hinv
          · cases tc with
            | none => exact txIffReg_set s.reg id _ hinv (by simp [txIffOk])
            | some v => exact absurd (hinv id _ hg) (by simp [txIffOk])
        case sqlite =>
          cases c
          · exact hinv
          · cases tc with
            | none => exact txIffReg_set s.reg id _ hinv (by simp [txIffOk])
            | some v => exact absurd (hinv id _ hg) (by simp [txIffOk])
  | rollbackOp id c =>
    show TxIffReg (rollbackTransactionFn s id c).1.reg
    unfold rollbackTransactionFn
    cases hg : getState s.reg id with
    | none => exact hinv
    | some st =>
      obtain ⟨dbt, tc, itx, unc⟩ := st
      cases itx
      case false => exact hinv
      case true =>
        cases dbt
        case postgresql =>
          cases tc with
          | none => exact hinv
          | some hh =>
            cases c
            · exact hinv
            · exact txIffReg_set s.reg id _ hinv (by simp [txIffOk])
        case mysql =>
          cases c
          · exact hinv
          · cases tc with
            | none => exact txIffReg_set s.reg id _ hinv (by simp [txIffOk])
            | some v => exact absurd (hinv id _ hg) (by simp [txIffOk])
        case sqlite =>
          cases c
          · exact hinv
          · cases tc with
            | none => exact txIffReg_set s.reg id _ hinv (by simp [txIffOk])
            | some v => exact absurd (hinv id _ hg) (by simp [txIffOk])
  | disconnectOp id rok cok =>
    have hc : cok = true := hop
    subst hc
    show TxIffReg (disconnectFn s id rok true).1.reg
    unfold disconnectFn
    cases hg : getState s.reg id with
    | none => exact hinv
    | some st =>
      obtain ⟨dbt, tc, itx, unc⟩ := st
      cases tc with
      | some hh =>
        cases rok
        · exact hinv
        · cases dbt <;> exact txIffReg_remove_after_set s.reg id _ hinv
      | none => cases dbt <;> exact txIffReg_remove s.reg id hinv

theorem txIffReg_runOps (ops : List Op) (hgood : ∀ op ∈ ops, goodCloseOp op = true) :
    TxIffReg (runOps ops).reg := by
  have hgen : ∀ (l : List Op) (s : ManagerState), TxIffReg s.reg →
      (∀ op ∈ l, goodCloseOp op = true) →
      TxIffReg ((l.foldl (fun t op => (applyOp t op).1) s).reg) := by
    intro l
    induction l with
    | nil => intro s hs _; exact hs
    | cons op rest ih =>
      intro s hs hg
      simp only [List.foldl_cons]
      exact ih _ (txIffReg_applyOp s op hs (hg op (List.mem_cons_self op rest)))
        (fun o ho => hg o (List.mem_cons_of_mem op ho))
  exact hgen ops initialManager (fun id st h => by simp [getState] at h) hgood

/-- C3 (amended): for every state reachable by connect, beginTransaction,
commitTransaction, rollbackTransaction and disconnect operations, including
all partial-failure outcomes of connect, begin, commit, rollback and of the
release step of disconnect, every registry record stores the dedicated
transaction client exactly when its backend is PostgreSQL and a transaction
is open — provided that whenever disconnect reaches its main-handle close
step, that close succeeds. (The unrestricted claim is false: a failing close
during disconnect of an in-transaction PostgreSQL connection leaves a record
with `inTransaction = true` and no stored client.) -/
theorem txHandle_invariant_goodClose (ops : List Op)
    (hgood : ∀ op ∈ ops, goodCloseOp op = true) :
    ∀ (id : String) (st : DbClientState),
      getState (runOps ops).reg id = some st →
      (st.transactionClient.isSome = true ↔
        st.dbType = DbType.postgresql ∧ st.inTransaction = true) := by
  intro id st hget
  exact (txIffOk_iff st).mp (txIffReg_runOps ops hgood id st hget)

/-- C3 counterexample: connect PostgreSQL, begin a transaction, then
disconnect with a successful release but a failing pool close. The entry
remains registered with `dbType = postgresql`, `inTransaction = true` and no
transaction client — the claimed if-and-only-if invariant is violated. -/
theorem txHandle_invariant_cex :
    getState (runOps [Op.connectOp "c" DbType.postgresql true, Op.beginOp "c" true true,
        Op.disconnectOp "c" true false]).reg "c" =
      some { dbType := DbType.postgresql, transactionClient := none,
             inTransaction := true, uncommittedQueries := 0 } ∧
    ¬(((none : Option Nat).isSome = true) ↔
        (DbType.postgresql = DbType.postgresql ∧ (true : Bool) = true)) := by decide

/-- C3 witness: after connect and begin on a PostgreSQL connection (a
sequence whose disconnects, vacuously, all close successfully), the stored
record satisfies the invariant. -/
theorem txHandle_invariant_goodClose_witness :
    ({ dbType := DbType.postgresql, transactionClient := some 0, inTransaction := true,
       uncommittedQueries := 0 } : DbClientState).transactionClient.isSome = true ↔
      ({ dbType := DbType.postgresql, transactionClient := some 0, inTransaction := true,
         uncommittedQueries := 0 } : DbClientState).dbType = DbType.postgresql ∧
      ({ dbType := DbType.postgresql, transactionClient := some 0, inTransaction := true,
         uncommittedQueries := 0 } : DbClientState).inTransaction = true :=
  txHandle_invariant_goodClose
    [Op.connectOp "c" DbType.postgresql true, Op.beginOp "c" true true]
    (by decide) "c"
    { dbType := DbType.postgresql, transactionClient := some 0, inTransaction := true,
      uncommittedQueries := 0 } (by decide)

/-! ## Claim C4: release accounting for the PostgreSQL transaction client -/

@[simp] theorem relCount_release (n : Nat) (es : List PoolEvent) (h : Nat) :
    relCount (PoolEvent.release n :: es) h = (if n = h then 1 else 0) + relCount es h := rfl

@[simp] theorem relCount_checkout (n : Nat) (es : List PoolEvent) (h : Nat) :
    relCount (PoolEvent.checkout n :: es) h = relCount es h := rfl

@[simp] theorem relCount_openMain (id : String) (es : List PoolEvent) (h : Nat) :
    relCount (PoolEvent.openMain id :: es) h = relCount es h := rfl

theorem relInv_initial : RelInv initialManager := by
  refine ⟨?_, ?_, ?_, ?_, ?_⟩
  · intro id st h hg _
    simp [initialManager, getState] at hg
  · intro id st h hg _
    simp [initialManager, getState] at hg
  · intro id1 id2 st1 st2 h hg1 hg2 _ _
    simp [initialManager, getState] at hg1
  · intro h
    simp [initialManager, relCount]
  · intro h hne
    simp [initialManager, relCount] at hne

theorem relInv_set_openMain (s : ManagerState) (id : String) (st2 : DbClientState)
    (hinv : RelInv s) (h2 : st2.transactionClient = none) :
    RelInv { s with reg := setState s.reg id st2,
                    events := PoolEvent.openMain id :: s.events } := by
  refine ⟨?_, ?_, ?_, ?_, ?_⟩
  · intro id' st' h' hget' htx'
    rcases eq_or_ne id' id with he | he
    · subst he
      rw [getState_setState_self] at hget'
      cases hget'
      rw [h2] at htx'
      cases htx'
    · rw [getState_setState_ne _ _ he] at hget'
      exact hinv.txFresh id' st' h' hget' htx'
  · intro id' st' h' hget' htx'
    rcases eq_or_ne id' id with he | he
    · subst he
      rw [getState_setState_self] at hget'
      cases hget'
      rw [h2] at htx'
      cases htx'
    · rw [getState_setState_ne _ _ he] at hget'
      rw [relCount_openMain]
      exact hinv.txUnreleased id' st' h' hget' htx'
  · intro id1 id2 st1 st2x h' hget1 hget2 htx1 htx2
    rcases eq_or_ne id1 id with he1 | he1
    · subst he1
      rw [getState_setState_self] at hget1
      cases hget1
      rw [h2] at htx1
      cases htx1
    · rcases eq_or_ne id2 id with he2 | he2
      · subst he2
        rw [getState_setState_self] at hget2
        cases hget2
        rw [h2] at htx2
        cases htx2
      · rw [getState_setState_ne _ _ he1] at hget1
        rw [getState_setState_ne _ _ he2] at hget2
        exact hinv.txDistinct id1 id2 st1 st2x h' hget1 hget2 htx1 htx2
  · intro h'
    rw [relCount_openMain]
    exact hinv.relOnce h'
  · intro h' hne
    rw [relCount_openMain] at hne
    exact hinv.relFresh h' hne

theorem relInv_checkout_leak (s : ManagerState) (hinv : RelInv s) :
    RelInv { s with nextHandle := s.nextHandle + 1,
                    events := PoolEvent.checkout s.nextHandle :: s.events } := by
  refine ⟨?_, ?_, ?_, ?_, ?_⟩
  · intro id' st' h' hget' htx'
    exact Nat.lt_succ_of_lt (hinv.txFresh id' st' h' hget' htx')
  · intro id' st' h' hget' htx'
    rw [relCount_checkout]
    exact hinv.txUnreleased id' st' h' hget' htx'
  · intro id1 id2 st1 st2 h' hget1 hget2 htx1 htx2
    exact hinv.txDistinct id1 id2 st1 st2 h' hget1 hget2 htx1 htx2
  · intro h'
    rw [relCount_checkout]
    exact hinv.relOnce h'
  · intro h' hne
    rw [relCount_checkout] at hne
    exact Nat.lt_succ_of_lt (hinv.relFresh h' hne)

theorem relInv_checkout (s : ManagerState) (id : String) (st st2 : DbClientState)
    (hinv : RelInv s) (hg : getState s.reg id = some st)
    (h2 : st2.transactionClient = some s.nextHandle) :
    RelInv { s with reg := setState s.reg id st2,
                    nextHandle := s.nextHandle + 1,
                    events := PoolEvent.checkout s.nextHandle :: s.events } := by
  refine ⟨?_, ?_, ?_, ?_, ?_⟩
  · intro id' st' h' hget' htx'
    rcases eq_or_ne id' id with he | he
    · subst he
      rw [getState_setState_self] at hget'
      cases hget'
      rw [h2] at htx'
      cases htx'
      exact Nat.lt_succ_self _
    · rw [getState_setState_ne _ _ he] at hget'
      exact Nat.lt_succ_of_lt (hinv.txFresh id' st' h' hget' htx')
  · intro id' st' h' hget' htx'
    rw [relCount_checkout]
    rcases eq_or_ne id' id with he | he
    · subst he
      rw [getState_setState_self] at hget'
      cases hget'
      rw [h2] at htx'
      cases htx'
      by_contra hc
      exact absurd (hinv.relFresh _ hc) (Nat.lt_irrefl _)
    · rw [getState_setState_ne _ _ he] at hget'
      exact hinv.txUnreleased id' st' h' hget' htx'
  · intro id1 id2 st1 st2x h' hget1 hget2 htx1 htx2
    rcases eq_or_ne id1 id with he1 | he1
    · rcases eq_or_ne id2 id with he2 | he2
      · rw [he1, he2]
      · subst he1
        rw [getState_setState_self] at hget1
        cases hget1
        rw [h2] at htx1
        cases htx1
        rw [getState_setState_ne _ _ he2] at hget2
        exact absurd (hinv.txFresh id2 st2x s.nextHandle hget2 htx2) (Nat.lt_irrefl _)
    · rcases eq_or_ne id2 id with he2 | he2
      · subst he2
        rw [getState_setState_self] at hget2
        cases hget2
        rw [h2] at htx2
        cases htx2
        rw [getState_setState_ne _ _ he1] at hget1
        exact absurd (hinv.txFresh id1 st1 s.nextHandle hget1 htx1) (Nat.lt_irrefl _)
      · rw [getState_setState_ne _ _ he1] at hget1
        rw [getState_setState_ne _ _ he2] at hget2
        exact hinv.txDistinct id1 id2 st1 st2x h' hget1 hget2 htx1 htx2
  · intro h'
    rw [relCount_checkout]
    exact hinv.relOnce h'
  · intro h' hne
    rw [relCount_checkout] at hne
    exact Nat.lt_succ_of_lt (hinv.relFresh h' hne)

theorem relInv_set_same (s : ManagerState) (id : String) (st st2 : DbClientState)
    (hinv : RelInv s) (hg : getState s.reg id = some st)
    (h2 : st2.transactionClient = st.transactionClient) :
    RelInv { s with reg := setState s.reg id st2 } := by
  refine ⟨?_, ?_, ?_, ?_, ?_⟩
  · intro id' st' h' hget' htx'
    rcases eq_or_ne id' id with he | he
    · rw [he, getState_setState_self] at hget'
      cases hget'
      rw [h2] at htx'
      exact hinv.txFresh id st h' hg htx'
    · rw [getState_setState_ne _ _ he] at hget'
      exact hinv.txFresh id' st' h' hget' htx'
  · intro id' st' h' hget' htx'
    rcases eq_or_ne id' id with he | he
    · rw [he, getState_setState_self] at hget'
      cases hget'
      rw [h2] at htx'
      exact hinv.txUnreleased id st h' hg htx'
    · rw [getState_setState_ne _ _ he] at hget'
      exact hinv.txUnreleased id' st' h' hget' htx'
  · intro id1 id2 st1 st2x h' hget1 hget2 htx1 htx2
    rcases eq_or_ne id1 id with he1 | he1
    · rcases eq_or_ne id2 id with he2 | he2
      · rw [he1, he2]
      · rw [he1, getState_setState_self] at hget1
        cases hget1
        rw [h2] at htx1
        rw [getState_setState_ne _ _ he2] at hget2
        rw [he1]
        exact hinv.txDistinct id id2 st st2x h' hg hget2 htx1 htx2
    · rcases eq_or_ne id2 id with he2 | he2
      · rw [he2, getState_setState_self] at hget2
        cases hget2
        rw [h2] at htx2
        rw [getState_setState_ne _ _ he1] at hget1
        rw [he2]
        exact hinv.txDistinct id1 id st1 st h' hget1 hg htx1 htx2
      · rw [getState_setState_ne _ _ he1] at hget1
        rw [getState_setState_ne _ _ he2] at hget2
        exact hinv.txDistinct id1 id2 st1 st2x h' hget1 hget2 htx1 htx2
  · exact hinv.relOnce
  · exact hinv.relFresh

theorem relInv_release (s : ManagerState) (id : String) (st st2 : DbClientState)
    (hh : Nat) (hinv : RelInv s) (hg : getState s.reg id = some st)
    (htx : st.transactionClient = some hh) (h2 : st2.transactionClient = none) :
    RelInv { s with reg := setState s.reg id st2,
                    events := PoolEvent.release hh :: s.events } := by
  refine ⟨?_, ?_, ?_, ?_, ?_⟩
  · intro id' st' h' hget' htx'
    rcases eq_or_ne id' id with he | he
    · subst he
      rw [getState_setState_self] at hget'
      cases hget'
      rw [h2] at htx'
      cases htx'
    · rw [getState_setState_ne _ _ he] at hget'
      exact hinv.txFresh id' st' h' hget' htx'
  · intro id' st' h' hget' htx'
    rcases eq_or_ne id' id with he | he
    · subst he
      rw [getState_setState_self] at hget'
      cases hget'
      rw [h2] at htx'
      cases htx'
    · rw [getState_setState_ne _ _ he] at hget'
      have hne : hh ≠ h' := by
        intro hhe
        subst hhe
        exact he (hinv.txDistinct id' id st' st hh hget' hg htx' htx)
      rw [relCount_release, if_neg hne, Nat.zero_add]
      exact hinv.txUnreleased id' st' h' hget' htx'
  · intro id1 id2 st1 st2x h' hget1 hget2 htx1 htx2
    rcases eq_or_ne id1 id with he1 | he1
    · subst he1
      rw [getState_setState_self] at hget1
      cases hget1
      rw [h2] at htx1
      cases htx1
    · rcases eq_or_ne id2 id with he2 | he2
      · subst he2
        rw [getState_setState_self] at hget2
        cases hget2
        rw [h2] at htx2
        cases htx2
      · rw [getState_setState_ne _ _ he1] at hget1
        rw [getState_setState_ne _ _ he2] at hget2
        exact hinv.txDistinct id1 id2 st1 st2x h' hget1 hget2 htx1 htx2
  · intro h'
    rcases eq_or_ne hh h' with he | he
    · subst he
      rw [relCount_release, if_pos rfl, hinv.txUnreleased id st hh hg htx]
    · rw [relCount_release, if_neg he, Nat.zero_add]
      exact hinv.relOnce h'
  · intro h' hne
    rcases eq_or_ne hh h' with he | he
    · subst he
      exact hinv.txFresh id st hh hg htx
    · rw [relCount_release, if_neg he, Nat.zero_add] at hne
      exact hinv.relFresh h' hne

theorem relInv_remove (s : ManagerState) (id : String) (hinv : RelInv s) :
    RelInv { s with reg := removeState s.reg id } := by
  refine ⟨?_, ?_, ?_, hinv.relOnce, hinv.relFresh⟩
  · intro id' st' h' hget' htx'
    rcases eq_or_ne id' id with he | he
    · subst he
      rw [getState_removeState_self] at hget'
      cases hget'
    · rw [getState_removeState_ne _ he] at hget'
      exact hinv.txFresh id' st' h' hget' htx'
  · intro id' st' h' hget' htx'
    rcases eq_or_ne id' id with he | he
    · subst he
      rw [getState_removeState_self] at hget'
      cases hget'
    · rw [getState_removeState_ne _ he] at hget'
      exact hinv.txUnreleased id' st' h' hget' htx'
  · intro id1 id2 st1 st2x h' hget1 hget2 htx1 htx2
    rcases eq_or_ne id1 id with he1 | he1
    · subst he1
      rw [getState_removeState_self] at hget1
      cases hget1
    · rcases eq_or_ne id2 id with he2 | he2
      · subst he2
        rw [getState_removeState_self] at hget2
        cases hget2
      · rw [getState_removeState_ne _ he1] at hget1
        rw [getState_removeState_ne _ he2] at hget2
        exact hinv.txDistinct id1 id2 st1 st2x h' hget1 hget2 htx1 htx2

theorem relInv_applyOp (s : ManagerState) (op : Op) (hinv : RelInv s) :
    RelInv (applyOp s op).1 := by
  cases op with
  | connectOp id dbt aok =>
    show RelInv (connectFn s id dbt aok).1
    unfold connectFn
    cases hg : getState s.reg id with
    | some st => exact hinv
    | none =>
      cases aok
      · exact hinv
      · exact relInv_set_openMain s id _ hinv rfl
  | beginOp id a b =>
    show RelInv (beginTransactionFn s id a b).1
    unfold beginTransactionFn
    cases hg : getState s.reg id with
    | none => exact hinv
    | some st =>
      obtain ⟨dbt, tc, itx, unc⟩ := st
      cases itx
      case true => exact hinv
      case false =>
        cases dbt
        case postgresql =>
          cases a
          · exact hinv
          · cases b
            · exact relInv_checkout_leak s hinv
            · exact relInv_checkout s id _ _ hinv hg rfl
        case mysql =>
          cases b
          · exact hinv
          · exact relInv_set_same s id _ _ hinv hg rfl
        case sqlite =>
          cases b
          · exact hinv
          · exact relInv_set_same s id _ _ hinv hg rfl
  | commitOp id c =>
    show RelInv (commitTransactionFn s id c).1
    unfold commitTransactionFn
    cases hg : getState s.reg id with
    | none => exact hinv
    | some st =>
      obtain ⟨dbt, tc, itx, unc⟩ := st
      cases itx
      case false => exact hinv
      case true =>
        cases dbt
        case postgresql =>
          cases tc with
          | none => exact hinv
          | some hh =>
            cases c
            · exact hinv
            · exact relInv_release s id _ _ hh hinv hg rfl rfl
        case mysql =>
          cases c
          · exact hinv
          · exact relInv_set_same s id _ _ hinv hg rfl
        case sqlite =>
          cases c
          · exact hinv
          · exact relInv_set_same s id _ _ hinv hg rfl
  | rollbackOp id c =>
    show RelInv (rollbackTransactionFn s id c).1
    unfold rollbackTransactionFn
    cases hg : getState s.reg id with
    | none => exact hinv
    | some st =>
      obtain ⟨dbt, tc, itx, unc⟩ := st
      cases itx
      case false => exact hinv
      case true =>
        cases dbt
        case postgresql =>
          cases tc with
          | none => exact hinv
          | some hh =>
            cases c
            · exact hinv
            · exact relInv_release s id _ _ hh hinv hg rfl rfl
        case mysql =>
          cases c
          · exact hinv
          · exact relInv_set_same s id _ _ hinv hg rfl
        case sqlite =>
          cases c
          · exact hinv
          · exact relInv_set_same s id _ _ hinv hg rfl
  | disconnectOp id rok cok =>
    show RelInv (disconnectFn s id rok cok).1
    unfold disconnectFn
    cases hg : getState s.reg id with
    | none => exact hinv
    | some st =>
      obtain ⟨dbt, tc, itx, unc⟩ := st
      cases tc with
      | some hh =>
        cases rok
        · exact hinv
        · cases dbt
          case postgresql =>
            cases cok
            · exact relInv_release s id _ _ hh hinv hg rfl rfl
            · exact relInv_remove
                { s with reg := setState s.reg id ⟨DbType.postgresql, none, itx, unc⟩,
                         events := PoolEvent.release hh :: s.events } id
                (relInv_release s id ⟨DbType.postgresql, some hh, itx, unc⟩
                  ⟨DbType.postgresql, none, itx, unc⟩ hh hinv hg rfl rfl)
          case mysql =>
            cases cok
            · exact relInv_release s id _ _ hh hinv hg rfl rfl
            · exact relInv_remove
                { s with reg := setState s.reg id ⟨DbType.mysql, none, itx, unc⟩,
                         events := PoolEvent.release hh :: s.events } id
                (relInv_release s id ⟨DbType.mysql, some hh, itx, unc⟩
                  ⟨DbType.mysql, none, itx, unc⟩ hh hinv hg rfl rfl)
          case sqlite =>
            exact relInv_remove
              { s with reg := setState s.reg id ⟨DbType.sqlite, none, itx, unc⟩,
                       events := PoolEvent.release hh :: s.events } id
              (relInv_release s id ⟨DbType.sqlite, some hh, itx, unc⟩
                ⟨DbType.sqlite, none, itx, unc⟩ hh hinv hg rfl rfl)
      | none =>
        cases dbt
        case postgresql =>
          cases cok
          · exact hinv
          · exact relInv_remove s id hinv
        case mysql =>
          cases cok
          · exact hinv
          · exact relInv_remove s id hinv
        case sqlite => exact relInv_remove s id hinv

theorem relInv_runOps (ops : List Op) : RelInv (runOps ops) := by
  have hgen : ∀ (l : List Op) (s : ManagerState), RelInv s →
      RelInv (l.foldl (fun t op => (applyOp t op).1) s) := by
    intro l
    induction l with
    | nil => intro s hs; exact hs
    | cons op rest ih =>
      intro s hs
      simp only [List.foldl_cons]
      exact ih _ (relInv_applyOp s op hs)
  exact hgen ops initialManager relInv_initial

/-- C4 (amended): for a PostgreSQL connection with an open transaction and a
stored transaction client, the client handle is released back to the pool
exactly once on the successful commit path, exactly once on the successful
rollback path, and exactly once on the successful disconnect path; when the
COMMIT or ROLLBACK statement itself fails, the method returns the state
unchanged, so the handle is NOT released on that error path (amending the
claim, which said it is); and across every operation sequence no handle is
ever released more than once. -/
theorem pgRelease_exactlyOnce :
    (∀ (s : ManagerState) (id : String) (st : DbClientState) (h : Nat),
        getState s.reg id = some st → st.dbType = DbType.postgresql →
        st.inTransaction = true → st.transactionClient = some h →
        (commitTransactionFn s id true).1.events = PoolEvent.release h :: s.events ∧
        (rollbackTransactionFn s id true).1.events = PoolEvent.release h :: s.events ∧
        (disconnectFn s id true true).1.events = PoolEvent.release h :: s.events ∧
        commitTransactionFn s id false = (s, OpResult.raised) ∧
        rollbackTransactionFn s id false = (s, OpResult.raised)) ∧
    (∀ (ops : List Op) (h : Nat), relCount (runOps ops).events h ≤ 1) := by
  constructor
  · intro s id st h hg hdb hin htx
    refine ⟨?_, ?_, ?_, ?_, ?_⟩
    · unfold commitTransactionFn
      simp [hg, hin, hdb, htx]
    · unfold rollbackTransactionFn
      simp [hg, hin, hdb, htx]
    · unfold disconnectFn
      simp [hg, hin, hdb, htx]
    · unfold commitTransactionFn
      simp [hg, hin, hdb, htx]
    · unfold rollbackTransactionFn
      simp [hg, hin, hdb, htx]
  · intro ops h
    exact (relInv_runOps ops).relOnce h

/-- C4 counterexample: connect PostgreSQL, begin a transaction (handle 0 is
checked out), then commit with a failing COMMIT statement. The event log
contains the checkout and no release at all: on the error path the handle is
not released back to the pool, contrary to the claim. -/
theorem pgRelease_errorPath_cex :
    (runOps [Op.connectOp "c" DbType.postgresql true, Op.beginOp "c" true true,
        Op.commitOp "c" false]).events =
      [PoolEvent.checkout 0, PoolEvent.openMain "c"] ∧
    relCount (runOps [Op.connectOp "c" DbType.postgresql true, Op.beginOp "c" true true,
        Op.commitOp "c" false]).events 0 = 0 := by decide

/-- C4 witness: on a live PostgreSQL connection with an open transaction
holding handle 0, a successful commit appends exactly one release event for
handle 0. -/
theorem pgRelease_exactlyOnce_witness :
    (commitTransactionFn
        (runOps [Op.connectOp "c" DbType.postgresql true, Op.beginOp "c" true true])
        "c" true).1.events =
      PoolEvent.release 0 ::
        (runOps [Op.connectOp "c" DbType.postgresql true, Op.beginOp "c" true true]).events :=
  (pgRelease_exactlyOnce.1
    (runOps [Op.connectOp "c" DbType.postgresql true, Op.beginOp "c" true true]) "c"
    { dbType := DbType.postgresql, transactionClient := some 0,
      inTransaction := true, uncommittedQueries := 0 } 0
    (by decide) rfl rfl rfl).1

end SqlRunner
